import Mathlib

/-
Verification of the root-finding toolkit (bisection / N-section / trisection /
fixed-point solver family).  The Python sources are embedded shallowly over ℚ:
pure numeric code becomes Lean functions, raised exceptions become an explicit
error type, and the `for` loops become fuel-indexed recursion where the fuel is
the number of remaining loop iterations of `range(1, nb_iteration)`.
-/

namespace RootFindingToolkit

/-- Errors raised by the Python code: `IntervalError(a, b, code)`, the
`IndexError` produced by indexing an empty list, and a bare `Exception(msg)`. -/
inductive PyErr where
  | intervalError (a b : ℚ) (code : ℕ)
  | indexError
  | pyException (msg : String)
  deriving DecidableEq, Repr

/-- `check_interval(f_x, a_0, b_0, tolerance)` from
`root_finding_methods_expert.py` (lines 47-78); the method
`DividingSearchSolverClass.check_interval` in `root_finding_methods.py`
(lines 138-154) and in `root_finding_methods_expert2.py` (lines 116-132) has
the identical logic.  All three compare `abs(f(endpoint)) < tolerance` with a
strict inequality. -/
def check_interval (f : ℚ → ℚ) (a b tol : ℚ) : Except PyErr (List ℚ) :=
  if f a * f b > 0 then .error (.intervalError a b 1)
  else if |f a| < tol then .ok [a]
  else if |f b| < tol then .ok [b]
  else .ok []

/-- `check_interval` from `root_finding_method_demo.py` (lines 42-67): the demo
variant alone compares with `abs(f(endpoint)) <= tolerance`. -/
def check_interval_demo (f : ℚ → ℚ) (a b tol : ℚ) : Except PyErr (List ℚ) :=
  if f a * f b > 0 then .error (.intervalError a b 1)
  else if |f a| ≤ tol then .ok [a]
  else if |f b| ≤ tol then .ok [b]
  else .ok []

/-- The sample points of one `DividingSearchSolverClass.solve` iteration
(`root_finding_methods.py` lines 172-175):
`[a] + [((nd - n)*a + n*b)/nd for n in range(1, nd)] + [b]`. -/
def samplePoints (nd : ℕ) (a b : ℚ) : List ℚ :=
  [a] ++
    ((List.range (nd - 1)).map (fun k =>
      (((nd : ℚ) - ((k : ℚ) + 1)) * a + ((k : ℚ) + 1) * b) / (nd : ℚ))) ++
    [b]

/-- Index of the first minimum of a list, as computed by `np.argmin` on the raw
(signed) values. -/
def argminIdx : List ℚ → ℕ
  | [] => 0
  | [_] => 0
  | x :: y :: ys =>
    let j := argminIdx (y :: ys)
    if x ≤ (y :: ys).getD j 0 then 0 else j + 1

/-- All adjacent pairs `(l[n], l[n+1])` of a list. -/
def adjacentPairs : List ℚ → List (ℚ × ℚ)
  | x :: y :: ys => (x, y) :: adjacentPairs (y :: ys)
  | _ => []

/-- `evol_array` of one solve iteration (`root_finding_methods.py` line 183):
the adjacent sample-point pairs whose f-values have a strictly negative
product. -/
def evolPairs (f : ℚ → ℚ) (c : List ℚ) : List (ℚ × ℚ) :=
  (adjacentPairs c).filter (fun pq => decide (f pq.1 * f pq.2 < 0))

/-- The candidate appended to `best_c_n` each iteration
(`root_finding_methods.py` line 178): `c_n[np.argmin(f_c_n)]`, the sample point
whose raw f-value is smallest. -/
def iterCandidate (f : ℚ → ℚ) (nd : ℕ) (a b : ℚ) : ℚ :=
  let c := samplePoints nd a b
  c.getD (argminIdx (c.map f)) 0

/-- The `for iteration_number in range(1, nb_iteration)` loop of
`DividingSearchSolverClass.solve` (`root_finding_methods.py` lines 171-191).
`fuel` is the number of loop iterations still to run and `lastIter` the last
value taken by `iteration_number` (0 if the loop has not run yet). -/
def dsSolveLoop (f : ℚ → ℚ) (nd : ℕ) (tol : ℚ) :
    ℕ → ℚ → ℚ → List ℚ → ℕ → Except PyErr (List ℚ × ℕ)
  | 0, _, _, best, lastIter => .ok (best, lastIter)
  | fuel + 1, a, b, best, lastIter =>
    let i := lastIter + 1
    let cand := iterCandidate f nd a b
    let best2 := best ++ [cand]
    if |f cand| < tol then .ok (best2, i)
    else
      let pairs := evolPairs f (samplePoints nd a b)
      if pairs.length > 1 then .error (.intervalError a b 2)
      else
        match pairs with
        | [] => .error .indexError
        | (p, q) :: _ => dsSolveLoop f nd tol fuel p q best2 i

/-- Ghost-instrumented copy of `dsSolveLoop` that additionally records the
bracket `(a_n, b_n)` present at the start of every executed loop iteration.
Its first component is proved equal to `dsSolveLoop`. -/
def dsSolveLoopTr (f : ℚ → ℚ) (nd : ℕ) (tol : ℚ) :
    ℕ → ℚ → ℚ → List ℚ → ℕ → Except PyErr (List ℚ × ℕ) × List (ℚ × ℚ)
  | 0, _, _, best, lastIter => (.ok (best, lastIter), [])
  | fuel + 1, a, b, best, lastIter =>
    let i := lastIter + 1
    let cand := iterCandidate f nd a b
    let best2 := best ++ [cand]
    if |f cand| < tol then (.ok (best2, i), [(a, b)])
    else
      let pairs := evolPairs f (samplePoints nd a b)
      if pairs.length > 1 then (.error (.intervalError a b 2), [(a, b)])
      else
        match pairs with
        | [] => (.error .indexError, [(a, b)])
        | (p, q) :: _ =>
          let r := dsSolveLoopTr f nd tol fuel p q best2 i
          (r.1, (a, b) :: r.2)

/-- `DividingSearchSolverClass.__init__` followed by `.solve`
(`root_finding_methods.py` lines 125-136 and 156-191): the constructor guards
(`number_of_division < 2`, then `f(a)*f(b) > 0`), then `check_interval`, the
early return on a non-empty result, and otherwise the dividing-search loop.
`BisectionSolverClass` is this with `nd = 2`, `TrisectionSolverClass` with
`nd = 3`. -/
def dsSolve (f : ℚ → ℚ) (nd : ℕ) (a b : ℚ) (nbIteration : ℕ) (tol : ℚ) :
    Except PyErr (List ℚ × ℕ) :=
  if nd < 2 then .error (.pyException "Division number must be > 2")
  else if f a * f b > 0 then .error (.intervalError a b 1)
  else
    match check_interval f a b tol with
    | .error e => .error e
    | .ok best =>
      if best.isEmpty then dsSolveLoop f nd tol (nbIteration - 1) a b [] 0
      else .ok (best, 0)

/-- `root_nearest_point(f_x, c_1, c_2)` from `root_finding_methods_expert.py`
(lines 81-99): `c_1 if min(abs(f(c_1)), abs(f(c_2))) == abs(f(c_1)) else c_2`. -/
def root_nearest_point (f : ℚ → ℚ) (c1 c2 : ℚ) : ℚ :=
  if min |f c1| |f c2| = |f c1| then c1 else c2

/-- The three-way bracket replacement of `trisection_method`
(`root_finding_methods_expert.py` lines 260-268), with the final `else` raising
`IntervalError(a, b, 2)`.  `c_1_n = (2a+b)/3` and `c_2_n = (a+2b)/3` are
recomputed here unchanged. -/
def trisectionUpdate (f : ℚ → ℚ) (a b : ℚ) : Except PyErr (ℚ × ℚ) :=
  let c1 := (2 * a + b) / 3
  let c2 := (a + 2 * b) / 3
  if f a * f c1 < 0 then .ok (a, c1)
  else if f c1 * f c2 < 0 then .ok (c1, c2)
  else if f c2 * f b < 0 then .ok (c2, b)
  else .error (.intervalError a b 2)

/-- The loop of `bisection_method` (`root_finding_methods_expert.py`
lines 198-211). -/
def bisectionLoop (f : ℚ → ℚ) (tol : ℚ) :
    ℕ → ℚ → ℚ → List ℚ → ℕ → Except PyErr (List ℚ × ℕ)
  | 0, _, _, cs, lastIter => .ok (cs, lastIter)
  | fuel + 1, a, b, cs, lastIter =>
    let i := lastIter + 1
    let c := a + (b - a) / 2
    let cs2 := cs ++ [c]
    if |f c| < tol then .ok (cs2, i)
    else if f a * f c < 0 then bisectionLoop f tol fuel a c cs2 i
    else if f c * f b < 0 then bisectionLoop f tol fuel c b cs2 i
    else .error (.intervalError a b 2)

/-- `bisection_method` from `root_finding_methods_expert.py` (lines 166-211):
`c_n = list(check_interval(...))` followed by `if c_n[0]:` — indexing an empty
list raises `IndexError`, and a present head is tested for Python numeric
truthiness (non-zero). -/
def bisection_method (f : ℚ → ℚ) (a b : ℚ) (nb : ℕ) (tol : ℚ) :
    Except PyErr (List ℚ × ℕ) :=
  match check_interval f a b tol with
  | .error e => .error e
  | .ok [] => .error .indexError
  | .ok (c0 :: rest) =>
    if c0 ≠ 0 then .ok (c0 :: rest, 0)
    else bisectionLoop f tol (nb - 1) a b (c0 :: rest) 0

/-- The loop of `trisection_method` (`root_finding_methods_expert.py`
lines 246-270). -/
def trisectionLoop (f : ℚ → ℚ) (tol : ℚ) :
    ℕ → ℚ → ℚ → List ℚ → ℕ → Except PyErr (List ℚ × ℕ)
  | 0, _, _, best, lastIter => .ok (best, lastIter)
  | fuel + 1, a, b, best, lastIter =>
    let i := lastIter + 1
    let c1 := (2 * a + b) / 3
    let c2 := (a + 2 * b) / 3
    if |f c1| < tol then .ok (best ++ [c1], i)
    else if |f c2| < tol then .ok (best ++ [c2], i)
    else
      let best2 := best ++ [root_nearest_point f c1 c2]
      match trisectionUpdate f a b with
      | .error e => .error e
      | .ok (p, q) => trisectionLoop f tol fuel p q best2 i

/-- `trisection_method` from `root_finding_methods_expert.py` (lines 214-270):
same `check_interval` + `best_c_n[0]` head access and truthiness test as
`bisection_method`. -/
def trisection_method (f : ℚ → ℚ) (a b : ℚ) (nb : ℕ) (tol : ℚ) :
    Except PyErr (List ℚ × ℕ) :=
  match check_interval f a b tol with
  | .error e => .error e
  | .ok [] => .error .indexError
  | .ok (c0 :: rest) =>
    if c0 ≠ 0 then .ok (c0 :: rest, 0)
    else trisectionLoop f tol (nb - 1) a b (c0 :: rest) 0

/-- The state carried by `FixedPointSolverClass.solve`: Python passes either a
scalar or a tuple of two floats through the same loop, dispatching on
`isinstance(p, tuple)`. -/
inductive PyVal where
  | num (x : ℚ)
  | pair (x y : ℚ)
  deriving DecidableEq, Repr

/-- `p[-1]` of an iterate: the value itself for a scalar, the last component
for a pair.  The scalar convergence test `abs(p - g(p))` coincides with the
last-component comparison because a scalar is its own last component. -/
def lastComp : PyVal → ℚ
  | .num x => x
  | .pair _ y => y

/-- `p_n[-1]` on the (always non-empty) iterate list. -/
def pyLastD : List PyVal → PyVal
  | [] => .num 0
  | [p] => p
  | _ :: rest => pyLastD rest

/-- The `for iteration_number in range(1, nb_iteration)` loop of
`FixedPointSolverClass.solve` (`root_finding_methods.py` lines 251-265).  The
update `g` returns `none` where the Python update rule raises
`ZeroDivisionError`; both evaluation sites of `g` sit inside the `try`, and the
`except ZeroDivisionError` clause breaks out of the loop.  The returned count
is `iteration_number + 1`. -/
def fpLoop (g : PyVal → Option PyVal) (tol : ℚ) :
    ℕ → List PyVal → ℕ → List PyVal × ℕ
  | 0, acc, lastIter => (acc, lastIter + 1)
  | fuel + 1, acc, lastIter =>
    let i := lastIter + 1
    match g (pyLastD acc) with
    | none => (acc, i + 1)
    | some p =>
      let acc2 := acc ++ [p]
      match g p with
      | none => (acc2, i + 1)
      | some p2 =>
        if |lastComp p - lastComp p2| < tol then (acc2, i + 1)
        else fpLoop g tol fuel acc2 i

/-- `FixedPointSolverClass.solve` (`root_finding_methods.py` lines 247-265):
`p_n = [p_0]`, then the loop over `range(1, nb_iteration)`. -/
def fpSolve (g : PyVal → Option PyVal) (p0 : PyVal) (nb : ℕ) (tol : ℚ) :
    List PyVal × ℕ :=
  fpLoop g tol (nb - 1) [p0] 0

/-- Concrete update rule used to exercise the fixed-point loop:
`0 ↦ 1/2 ↦ 10 ↦ 10`, undefined elsewhere. -/
def gC6 : PyVal → Option PyVal
  | .num x =>
    if x = 0 then some (.num (1 / 2))
    else if x = 1 / 2 then some (.num 10)
    else if x = 10 then some (.num 10)
    else none
  | _ => none

/-- Concrete update rule whose denominator vanishes after one step:
`0 ↦ 1`, then division by zero at `1`. -/
def gZ : PyVal → Option PyVal
  | .num x => if x = 0 then some (.num 1) else none
  | _ => none

/-- Concrete piecewise test function with three sign changes among the four
trisection sample points of `[0, 1]`. -/
def fStep (x : ℚ) : ℚ :=
  if x < 1 / 3 then 1 else if x < 2 / 3 then -1 else if x < 1 then 1 else -1

/-- Every pair collected into `evol_array` has f-values of strictly negative
product: this is exactly the filter predicate of line 183. -/
theorem mem_evolPairs (f : ℚ → ℚ) (c : List ℚ) (pq : ℚ × ℚ)
    (h : pq ∈ evolPairs f c) : f pq.1 * f pq.2 < 0 := by
  simp only [evolPairs, List.mem_filter, decide_eq_true_eq] at h
  exact h.2

/-- A normal return of the dividing-search loop either ends in a candidate
within tolerance or used up all its iterations. -/
theorem dsSolveLoop_ok (f : ℚ → ℚ) (nd : ℕ) (tol : ℚ) :
    ∀ (fuel : ℕ) (a b : ℚ) (best : List ℚ) (i0 : ℕ) (l : List ℚ) (i : ℕ),
      dsSolveLoop f nd tol fuel a b best i0 = .ok (l, i) →
      (∃ c, l.getLast? = some c ∧ |f c| < tol) ∨ i = i0 + fuel := by
  intro fuel
  induction fuel with
  | zero =>
    intro a b best i0 l i h
    simp only [dsSolveLoop, Except.ok.injEq, Prod.mk.injEq] at h
    right
    omega
  | succ n ih =>
    intro a b best i0 l i h
    simp only [dsSolveLoop] at h
    split at h
    · simp only [Except.ok.injEq, Prod.mk.injEq] at h
      obtain ⟨hl, _⟩ := h
      subst hl
      exact Or.inl ⟨iterCandidate f nd a b, List.getLast?_concat best, by assumption⟩
    · split at h
      · simp at h
      · split at h
        · simp at h
        · rcases ih _ _ _ _ _ _ h with hc | hi
          · exact Or.inl hc
          · right; omega

/-- The traced loop visits only sign-changing brackets: the entry bracket with
product at most zero, and afterwards only pairs drawn from `evol_array`. -/
theorem dsSolveLoopTr_invariant (f : ℚ → ℚ) (nd : ℕ) (tol : ℚ) :
    ∀ (fuel : ℕ) (a b : ℚ) (best : List ℚ) (i : ℕ), f a * f b ≤ 0 →
      ∀ pq ∈ (dsSolveLoopTr f nd tol fuel a b best i).2, f pq.1 * f pq.2 ≤ 0 := by
  intro fuel
  induction fuel with
  | zero =>
    intro a b best i hab pq hpq
    simp [dsSolveLoopTr] at hpq
  | succ n ih =>
    intro a b best i hab pq hpq
    simp only [dsSolveLoopTr] at hpq
    split at hpq
    · simp only [List.mem_singleton] at hpq
      subst hpq; exact hab
    · split at hpq
      · simp only [List.mem_singleton] at hpq
        subst hpq; exact hab
      · split at hpq
        · simp only [List.mem_singleton] at hpq
          subst hpq; exact hab
        · rename_i p q tail heq
          simp only [List.mem_cons] at hpq
          rcases hpq with h1 | h2
          · subst h1; exact hab
          · have hlt : f p * f q < 0 := by
              refine mem_evolPairs f (samplePoints nd a b) (p, q) ?_
              rw [heq]; exact List.mem_cons_self _ _
            exact ih p q _ _ (le_of_lt hlt) pq h2

/-- The traced loop computes the same result as the plain loop. -/
theorem dsSolveLoopTr_fst (f : ℚ → ℚ) (nd : ℕ) (tol : ℚ) :
    ∀ (fuel : ℕ) (a b : ℚ) (best : List ℚ) (i : ℕ),
      (dsSolveLoopTr f nd tol fuel a b best i).1 =
        dsSolveLoop f nd tol fuel a b best i := by
  intro fuel
  induction fuel with
  | zero => intro a b best i; rfl
  | succ n ih =>
    intro a b best i
    simp only [dsSolveLoopTr, dsSolveLoop]
    split
    · rfl
    · split
      · rfl
      · split
        · rfl
        · exact ih _ _ _ _

/-- The dividing-search loop can fail only with `IntervalError` or
`IndexError`, never with the constructor's bare `Exception`. -/
theorem dsSolveLoop_no_pyException (f : ℚ → ℚ) (nd : ℕ) (tol : ℚ) :
    ∀ (fuel : ℕ) (a b : ℚ) (best : List ℚ) (i : ℕ) (m : String),
      dsSolveLoop f nd tol fuel a b best i ≠ .error (.pyException m) := by
  intro fuel
  induction fuel with
  | zero => intro a b best i m h; simp [dsSolveLoop] at h
  | succ n ih =>
    intro a b best i m h
    simp only [dsSolveLoop] at h
    split at h
    · simp at h
    · split at h
      · simp at h
      · split at h
        · simp at h
        · exact ih _ _ _ _ m h

/-- Claim C1.  The claim states that the candidate appended each iteration is
the sample point with smallest absolute f-value.  The code instead appends
`c_n[np.argmin(f_c_n)]`, the point with the smallest raw signed f-value.
Evaluating the embedded solver at `f(x) = x - 1/4` on `[-1, 1]` with two
divisions, `nb_iteration = 2`, `tolerance = 1/10`: the single loop iteration
appends `-1` (where `f = -5/4` is most negative), although the sample point `0`
has strictly smaller `|f|` (`1/4` versus `5/4`). -/
theorem claim1_candidate_uses_signed_argmin :
    dsSolve (fun x => x - 1 / 4) 2 (-1) 1 2 (1 / 10) = .ok ([-1], 1) ∧
    iterCandidate (fun x => x - 1 / 4) 2 (-1) 1 = -1 ∧
    (0 : ℚ) ∈ samplePoints 2 (-1) 1 ∧
    |(0 : ℚ) - 1 / 4| < |(-1 : ℚ) - 1 / 4| := by
  refine ⟨?_, ?_, ?_, ?_⟩
  · norm_num [dsSolve, check_interval, dsSolveLoop, iterCandidate,
      samplePoints, argminIdx, evolPairs, adjacentPairs, List.range_succ,
      abs_eq_max_neg, max_def]
  · norm_num [iterCandidate, samplePoints, argminIdx, List.range_succ]
  · norm_num [samplePoints, List.range_succ]
  · norm_num [abs_eq_max_neg, max_def]

/-- Claim C2 counterexample.  The claim states that a mid-solve scan finding
zero sign-changing pairs fails with `IntervalError` code 2.  With `f(x) = x` on
`[-1, 1]`, two divisions and `tolerance = 1/2`, the first iteration's scan
finds zero strictly sign-changing pairs (the middle sample is an exact root,
so both adjacent products are zero) and the solve fails with `IndexError` from
`evol_array[0]`, not with `IntervalError` code 2. -/
theorem claim2_zero_pairs_counterexample :
    evolPairs (fun x : ℚ => x) (samplePoints 2 (-1) 1) = [] ∧
    dsSolve (fun x : ℚ => x) 2 (-1) 1 10 (1 / 2) = .error .indexError ∧
    PyErr.indexError ≠ PyErr.intervalError (-1) 1 2 := by
  refine ⟨?_, ?_, by simp⟩
  · norm_num [evolPairs, adjacentPairs, samplePoints, List.range_succ]
  · norm_num [dsSolve, check_interval, dsSolveLoop, iterCandidate,
      samplePoints, argminIdx, evolPairs, adjacentPairs, List.range_succ,
      abs_eq_max_neg, max_def]

/-- Claim C2, amended.  When the candidate is not within tolerance, a scan
finding more than one sign-changing pair fails with `IntervalError` code 2,
while a scan finding zero such pairs fails with `IndexError` (the unguarded
`evol_array[0]` on an empty list). -/
theorem claim2_pair_scan_error_modes (f : ℚ → ℚ) (nd : ℕ) (tol : ℚ)
    (fuel : ℕ) (a b : ℚ) (best : List ℚ) (i : ℕ)
    (hcand : ¬ |f (iterCandidate f nd a b)| < tol) :
    ((evolPairs f (samplePoints nd a b)).length > 1 →
      dsSolveLoop f nd tol (fuel + 1) a b best i =
        .error (.intervalError a b 2)) ∧
    (evolPairs f (samplePoints nd a b) = [] →
      dsSolveLoop f nd tol (fuel + 1) a b best i = .error .indexError) := by
  constructor
  · intro hlen
    simp only [dsSolveLoop, if_neg hcand, if_pos hlen]
  · intro hnil
    simp only [dsSolveLoop, if_neg hcand, hnil]
    simp

/-- Witness for the amended claim C2, at the two concrete inputs: `f(x) = x`
on `[-1, 1]` with two divisions (zero pairs, `IndexError`) and the three-fold
sign-changing step function on `[0, 1]` with three divisions (three pairs,
`IntervalError` code 2). -/
theorem claim2_pair_scan_error_modes_witness :
    (¬ |(fun x : ℚ => x) (iterCandidate (fun x : ℚ => x) 2 (-1) 1)| < 1 / 2) ∧
    dsSolveLoop (fun x : ℚ => x) 2 (1 / 2) 1 (-1) 1 [] 0 =
      .error .indexError ∧
    (¬ |fStep (iterCandidate fStep 3 0 1)| < 1 / 2) ∧
    (evolPairs fStep (samplePoints 3 0 1)).length > 1 ∧
    dsSolveLoop fStep 3 (1 / 2) 1 0 1 [] 0 = .error (.intervalError 0 1 2) := by
  refine ⟨?_, ?_, ?_, ?_, ?_⟩
  · norm_num [iterCandidate, samplePoints, argminIdx, List.range_succ,
      abs_eq_max_neg, max_def]
  · exact (claim2_pair_scan_error_modes (fun x : ℚ => x) 2 (1 / 2) 0 (-1) 1 []
      0 (by norm_num [iterCandidate, samplePoints, argminIdx, List.range_succ,
        abs_eq_max_neg, max_def])).2
      (by norm_num [evolPairs, adjacentPairs, samplePoints, List.range_succ])
  · norm_num [fStep, iterCandidate, samplePoints, argminIdx, List.range_succ,
      abs_eq_max_neg, max_def]
  · norm_num [fStep, evolPairs, adjacentPairs, samplePoints, List.range_succ]
  · exact (claim2_pair_scan_error_modes fStep 3 (1 / 2) 0 0 1 [] 0
      (by norm_num [fStep, iterCandidate, samplePoints, argminIdx,
        List.range_succ, abs_eq_max_neg, max_def])).1
      (by norm_num [fStep, evolPairs, adjacentPairs, samplePoints,
        List.range_succ])

/-- Claim C3.  For a valid bracket (`f(a) * f(b) <= 0`) and a positive
iteration budget, any estimate list returned by the bisection solver
(`DividingSearchSolverClass` with `number_of_division = 2`) either ends in a
candidate `c` with `|f(c)| <= tolerance` or comes with an iteration count
equal to `nb_iteration - 1`. -/
theorem claim3_bisection_tolerance_or_last_iteration (f : ℚ → ℚ)
    (a b tol : ℚ) (nb : ℕ) (hnb : 1 ≤ nb) (hbr : f a * f b ≤ 0)
    (l : List ℚ) (i : ℕ) (h : dsSolve f 2 a b nb tol = .ok (l, i)) :
    (∃ c, l.getLast? = some c ∧ |f c| ≤ tol) ∨ i = nb - 1 := by
  unfold dsSolve at h
  rw [if_neg (by omega), if_neg (not_lt.mpr hbr)] at h
  unfold check_interval at h
  rw [if_neg (not_lt.mpr hbr)] at h
  by_cases ha : |f a| < tol
  · rw [if_pos ha] at h
    simp only [List.isEmpty_cons, Bool.false_eq_true, if_false,
      Except.ok.injEq, Prod.mk.injEq] at h
    obtain ⟨hl, _⟩ := h
    subst hl
    exact Or.inl ⟨a, rfl, le_of_lt ha⟩
  · rw [if_neg ha] at h
    by_cases hb : |f b| < tol
    · rw [if_pos hb] at h
      simp only [List.isEmpty_cons, Bool.false_eq_true, if_false,
        Except.ok.injEq, Prod.mk.injEq] at h
      obtain ⟨hl, _⟩ := h
      subst hl
      exact Or.inl ⟨b, rfl, le_of_lt hb⟩
    · rw [if_neg hb] at h
      simp only [List.isEmpty_nil, if_true] at h
      rcases dsSolveLoop_ok f 2 tol (nb - 1) a b [] 0 l i h with ⟨c, hc, hct⟩ | hi
      · exact Or.inl ⟨c, hc, le_of_lt hct⟩
      · right; omega

/-- Witness for claim C3 at `f(x) = x - 1/3` on `[0, 1]`, `nb_iteration = 3`,
`tolerance = 1/100`: the solver returns normally and the theorem applies. -/
theorem claim3_bisection_tolerance_or_last_iteration_witness :
    (1 ≤ 3 ∧ (fun x : ℚ => x - 1 / 3) 0 * (fun x : ℚ => x - 1 / 3) 1 ≤ 0 ∧
      dsSolve (fun x : ℚ => x - 1 / 3) 2 0 1 3 (1 / 100) = .ok ([0, 0], 2)) ∧
    ((∃ c, ([0, 0] : List ℚ).getLast? = some c ∧
        |(fun x : ℚ => x - 1 / 3) c| ≤ 1 / 100) ∨ 2 = 3 - 1) := by
  have hrun : dsSolve (fun x : ℚ => x - 1 / 3) 2 0 1 3 (1 / 100) =
      .ok ([0, 0], 2) := by
    norm_num [dsSolve, check_interval, dsSolveLoop, iterCandidate,
      samplePoints, argminIdx, evolPairs, adjacentPairs, List.range_succ,
      abs_eq_max_neg, max_def]
  refine ⟨⟨by omega, by norm_num, hrun⟩, ?_⟩
  exact claim3_bisection_tolerance_or_last_iteration (fun x : ℚ => x - 1 / 3)
    0 1 (1 / 100) 3 (by omega) (by norm_num) [0, 0] 2 hrun

/-- Claim C4.  The sign-change invariant `f(a_n) * f(b_n) <= 0`:
(1) a constructed solver with `f(a) * f(b) > 0` fails at construction with
`IntervalError` code 1; (2) starting from a bracket with non-positive product,
every bracket visited by the dividing-search loop keeps a non-positive
product (the replacement pair is drawn from the strictly sign-changing
`evol_array`); (3) every bracket replacement performed by the trisection
method's three-way update yields a strictly negative product, or the update
fails; (4) the trace-instrumented loop used in (2) computes the same result
as the plain loop. -/
theorem claim4_bracket_sign_change_invariant :
    (∀ (f : ℚ → ℚ) (nd : ℕ) (a b tol : ℚ) (nb : ℕ), 2 ≤ nd →
      f a * f b > 0 →
      dsSolve f nd a b nb tol = .error (.intervalError a b 1)) ∧
    (∀ (f : ℚ → ℚ) (nd : ℕ) (tol : ℚ) (fuel : ℕ) (a b : ℚ) (best : List ℚ)
      (i : ℕ), f a * f b ≤ 0 →
      ∀ pq ∈ (dsSolveLoopTr f nd tol fuel a b best i).2,
        f pq.1 * f pq.2 ≤ 0) ∧
    (∀ (f : ℚ → ℚ) (a b : ℚ) (pq : ℚ × ℚ), trisectionUpdate f a b = .ok pq →
      f pq.1 * f pq.2 < 0) ∧
    (∀ (f : ℚ → ℚ) (nd : ℕ) (tol : ℚ) (fuel : ℕ) (a b : ℚ) (best : List ℚ)
      (i : ℕ),
      (dsSolveLoopTr f nd tol fuel a b best i).1 =
        dsSolveLoop f nd tol fuel a b best i) := by
  refine ⟨?_, dsSolveLoopTr_invariant, ?_, dsSolveLoopTr_fst⟩
  · intro f nd a b tol nb hnd hab
    unfold dsSolve
    rw [if_neg (by omega), if_pos hab]
  · intro f a b pq h
    simp only [trisectionUpdate] at h
    split_ifs at h with h1 h2 h3
    · simp only [Except.ok.injEq] at h
      subst h; exact h1
    · simp only [Except.ok.injEq] at h
      subst h; exact h2
    · simp only [Except.ok.injEq] at h
      subst h; exact h3

/-- Witness for claim C4: part (1) at the sign-change-free `f(x) = 1` on
`[0, 1]`, and part (2) at `f(x) = x - 1/3` on `[0, 1]`. -/
theorem claim4_bracket_sign_change_invariant_witness :
    (2 ≤ 2 ∧ (fun _ : ℚ => (1 : ℚ)) 0 * (fun _ : ℚ => (1 : ℚ)) 1 > 0 ∧
      dsSolve (fun _ : ℚ => (1 : ℚ)) 2 0 1 5 (1 / 2) =
        .error (.intervalError 0 1 1)) ∧
    ((fun x : ℚ => x - 1 / 3) 0 * (fun x : ℚ => x - 1 / 3) 1 ≤ 0 ∧
      ∀ pq ∈ (dsSolveLoopTr (fun x : ℚ => x - 1 / 3) 2 (1 / 100) 5 0 1
          [] 0).2,
        (fun x : ℚ => x - 1 / 3) pq.1 * (fun x : ℚ => x - 1 / 3) pq.2 ≤ 0) := by
  refine ⟨⟨by omega, by norm_num, ?_⟩, ⟨by norm_num, ?_⟩⟩
  · exact claim4_bracket_sign_change_invariant.1 (fun _ : ℚ => (1 : ℚ)) 2 0 1
      (1 / 2) 5 (by omega) (by norm_num)
  · exact claim4_bracket_sign_change_invariant.2.1 (fun x : ℚ => x - 1 / 3) 2
      (1 / 100) 5 0 1 [] 0 (by norm_num)

/-- Claim C5.  If the update rule signals division by zero mid-loop — at
either of its two evaluation sites inside the `try` block — the fixed-point
loop stops at once and returns normally (the return type is a plain pair, so
no error can propagate), keeping exactly the valid iterates computed so far. -/
theorem claim5_zero_division_recovery (g : PyVal → Option PyVal) (tol : ℚ)
    (fuel : ℕ) (acc : List PyVal) (i : ℕ) :
    (g (pyLastD acc) = none → fpLoop g tol (fuel + 1) acc i = (acc, i + 2)) ∧
    (∀ p, g (pyLastD acc) = some p → g p = none →
      fpLoop g tol (fuel + 1) acc i = (acc ++ [p], i + 2)) := by
  constructor
  · intro h
    simp only [fpLoop, h]
  · intro p h1 h2
    simp only [fpLoop, h1, h2]

/-- Witness for claim C5 with the rule `gZ` (`0 ↦ 1`, division by zero at
`1`): a failure at the update site leaves the list untouched, a failure at the
convergence-test site keeps the freshly appended iterate. -/
theorem claim5_zero_division_recovery_witness :
    (gZ (pyLastD [PyVal.num 1]) = none ∧
      fpLoop gZ 1 3 [PyVal.num 1] 0 = ([PyVal.num 1], 2)) ∧
    (gZ (pyLastD [PyVal.num 0]) = some (PyVal.num 1) ∧
      gZ (PyVal.num 1) = none ∧
      fpLoop gZ 1 3 [PyVal.num 0] 0 = ([PyVal.num 0, PyVal.num 1], 2)) := by
  have h1 : gZ (pyLastD [PyVal.num 1]) = none := by norm_num [gZ, pyLastD]
  have h2 : gZ (pyLastD [PyVal.num 0]) = some (PyVal.num 1) := by
    norm_num [gZ, pyLastD]
  have h3 : gZ (PyVal.num 1) = none := by norm_num [gZ]
  exact ⟨⟨h1, (claim5_zero_division_recovery gZ 1 2 [PyVal.num 1] 0).1 h1⟩,
    ⟨h2, h3, (claim5_zero_division_recovery gZ 1 2 [PyVal.num 0] 0).2
      (PyVal.num 1) h2 h3⟩⟩

/-- Claim C6 counterexample.  The claim states the test compares
`|p - g(p)|` and on success returns `g(p)`.  With the rule `gC6`
(`0 ↦ 1/2 ↦ 10 ↦ 10`), seed `0` and `tolerance = 1`: the seed and its image
are within tolerance (`|0 - 1/2| < 1`), yet the loop does not stop there —
it runs on and returns `10` after three counted iterations, not `1/2`. -/
theorem claim6_convergence_test_counterexample :
    gC6 (PyVal.num 0) = some (PyVal.num (1 / 2)) ∧
    |lastComp (PyVal.num 0) - lastComp (PyVal.num (1 / 2))| < 1 ∧
    fpSolve gC6 (PyVal.num 0) 10 1 =
      ([PyVal.num 0, PyVal.num (1 / 2), PyVal.num 10], 3) ∧
    ([PyVal.num 0, PyVal.num (1 / 2), PyVal.num 10].getLast? ≠
      some (PyVal.num (1 / 2))) := by
  refine ⟨?_, ?_, ?_, ?_⟩
  · norm_num [gC6]
  · norm_num [lastComp, abs_eq_max_neg, max_def]
  · norm_num [fpSolve, fpLoop, gC6, pyLastD, lastComp, abs_eq_max_neg,
      max_def]
  · norm_num [List.getLast?]

/-- Claim C6, amended.  Each iteration first appends the new iterate
`p = g(previous)` and then tests that appended iterate against a further
image: `|p - g(p)| < tolerance` (last components for pairs).  When the test
holds the loop returns `p` — the newly appended value, not the previous state
— and the extra `g(p)` computed for the test is discarded. -/
theorem claim6_convergence_returns_new_iterate (g : PyVal → Option PyVal)
    (tol : ℚ) (fuel : ℕ) (acc : List PyVal) (i : ℕ) (p p2 : PyVal)
    (h1 : g (pyLastD acc) = some p) (h2 : g p = some p2)
    (h3 : |lastComp p - lastComp p2| < tol) :
    fpLoop g tol (fuel + 1) acc i = (acc ++ [p], i + 2) := by
  simp only [fpLoop, h1, h2, if_pos h3]

/-- Witness for the amended claim C6 with `gC6` from state `1/2`: the new
iterate `10` passes the test against its own image and is returned. -/
theorem claim6_convergence_returns_new_iterate_witness :
    gC6 (pyLastD [PyVal.num (1 / 2)]) = some (PyVal.num 10) ∧
    gC6 (PyVal.num 10) = some (PyVal.num 10) ∧
    |lastComp (PyVal.num 10) - lastComp (PyVal.num 10)| < 1 ∧
    fpLoop gC6 1 4 [PyVal.num (1 / 2)] 0 =
      ([PyVal.num (1 / 2), PyVal.num 10], 2) := by
  have h1 : gC6 (pyLastD [PyVal.num (1 / 2)]) = some (PyVal.num 10) := by
    norm_num [gC6, pyLastD]
  have h2 : gC6 (PyVal.num 10) = some (PyVal.num 10) := by norm_num [gC6]
  have h3 : |lastComp (PyVal.num 10) - lastComp (PyVal.num 10)| < 1 := by
    norm_num [lastComp]
  exact ⟨h1, h2, h3, claim6_convergence_returns_new_iterate gC6 1 3
    [PyVal.num (1 / 2)] 0 (PyVal.num 10) (PyVal.num 10) h1 h2 h3⟩

/-- Claim C7.  For every `f`, `a`, `b` with `f(a) * f(b) > 0`, the
dividing-search solver (any `number_of_division >= 2`, so in particular
bisection and trisection) fails with `IntervalError` code 1; the result does
not depend on the iteration budget, so the narrowing loop never runs.  The
free-function path `check_interval` fails identically. -/
theorem claim7_bracket_error_no_sign_change (f : ℚ → ℚ) (nd : ℕ)
    (a b tol : ℚ) (nb : ℕ) (hnd : 2 ≤ nd) (h : f a * f b > 0) :
    dsSolve f nd a b nb tol = .error (.intervalError a b 1) ∧
    check_interval f a b tol = .error (.intervalError a b 1) := by
  constructor
  · unfold dsSolve
    rw [if_neg (by omega), if_pos h]
  · unfold check_interval
    rw [if_pos h]

/-- Witness for claim C7 at `f(x) = x^2 + 1` on `[0, 1]` with bisection. -/
theorem claim7_bracket_error_no_sign_change_witness :
    (2 ≤ 2 ∧ (fun x : ℚ => x ^ 2 + 1) 0 * (fun x : ℚ => x ^ 2 + 1) 1 > 0) ∧
    dsSolve (fun x : ℚ => x ^ 2 + 1) 2 0 1 100 (1 / 1000000000) =
      .error (.intervalError 0 1 1) ∧
    check_interval (fun x : ℚ => x ^ 2 + 1) 0 1 (1 / 1000000000) =
      .error (.intervalError 0 1 1) := by
  refine ⟨⟨by omega, by norm_num⟩, ?_, ?_⟩
  · exact (claim7_bracket_error_no_sign_change (fun x : ℚ => x ^ 2 + 1) 2 0 1
      (1 / 1000000000) 100 (by omega) (by norm_num)).1
  · exact (claim7_bracket_error_no_sign_change (fun x : ℚ => x ^ 2 + 1) 2 0 1
      (1 / 1000000000) 100 (by omega) (by norm_num)).2

/-- Claim C8 counterexample.  The claim states `|f(a)| <= tolerance` counts as
a root at `a`.  With `f(x) = x`, `a = 1`, `b = -2`, `tolerance = 1`: the
bracket is valid and `|f(a)| = tolerance`, yet `check_interval` (the expert
free function, identical to the class method) returns the empty
no-immediate-root result instead of `[a]`, because it compares strictly. -/
theorem claim8_boundary_tolerance_counterexample :
    (¬ (fun x : ℚ => x) 1 * (fun x : ℚ => x) (-2) > 0) ∧
    |(fun x : ℚ => x) 1| ≤ 1 ∧
    check_interval (fun x : ℚ => x) 1 (-2) 1 = .ok [] ∧
    (Except.ok ([] : List ℚ) ≠ (.ok [(1 : ℚ)] : Except PyErr (List ℚ))) := by
  refine ⟨by norm_num, ?_, ?_, by simp⟩
  · norm_num [abs_eq_max_neg, max_def]
  · norm_num [check_interval, abs_eq_max_neg, max_def]

/-- Claim C8, amended.  With a valid bracket, `check_interval` (expert free
function and class method alike) returns `[a]` if `|f(a)| < tolerance`
strictly, else `[b]` if `|f(b)| < tolerance` strictly (checked after `a`),
else `[]`; `|f(endpoint)| = tolerance` does not count as a root there.  Only
the demo variant compares with `<=` and accepts the boundary case. -/
theorem claim8_check_interval_strict_branches (f : ℚ → ℚ) (a b tol : ℚ)
    (h : ¬ f a * f b > 0) :
    (|f a| < tol → check_interval f a b tol = .ok [a]) ∧
    (¬ |f a| < tol → |f b| < tol → check_interval f a b tol = .ok [b]) ∧
    (¬ |f a| < tol → ¬ |f b| < tol → check_interval f a b tol = .ok []) ∧
    (|f a| ≤ tol → check_interval_demo f a b tol = .ok [a]) := by
  refine ⟨fun ha => ?_, fun ha hb => ?_, fun ha hb => ?_, fun ha => ?_⟩
  · unfold check_interval
    rw [if_neg h, if_pos ha]
  · unfold check_interval
    rw [if_neg h, if_neg ha, if_pos hb]
  · unfold check_interval
    rw [if_neg h, if_neg ha, if_neg hb]
  · unfold check_interval_demo
    rw [if_neg h, if_pos ha]

/-- Witness for the amended claim C8 at `f(x) = x`: the strict branch for
`a = 0` on `[0, 5]`, the empty branch at the boundary input of the
counterexample, and the demo variant accepting that same boundary input. -/
theorem claim8_check_interval_strict_branches_witness :
    (¬ (fun x : ℚ => x) 0 * (fun x : ℚ => x) 5 > 0) ∧
    check_interval (fun x : ℚ => x) 0 5 (1 / 2) = .ok [0] ∧
    check_interval_demo (fun x : ℚ => x) 1 (-2) 1 = .ok [1] := by
  refine ⟨by norm_num, ?_, ?_⟩
  · exact (claim8_check_interval_strict_branches (fun x : ℚ => x) 0 5 (1 / 2)
      (by norm_num)).1 (by norm_num [abs_eq_max_neg, max_def])
  · exact (claim8_check_interval_strict_branches (fun x : ℚ => x) 1 (-2) 1
      (by norm_num)).2.2.2 (by norm_num [abs_eq_max_neg, max_def])

/-- Claim C9.  Whenever `check_interval` finds no endpoint root (valid
bracket, neither `|f(a)|` nor `|f(b)|` within tolerance), the expert free
functions `bisection_method` and `trisection_method` index `c_n[0]` of its
empty result and fail with `IndexError` — independently of the iteration
budget, so their narrowing loops are never reached on this ordinary path. -/
theorem claim9_expert_methods_index_error (f : ℚ → ℚ) (a b tol : ℚ) (nb : ℕ)
    (h1 : ¬ f a * f b > 0) (h2 : ¬ |f a| < tol) (h3 : ¬ |f b| < tol) :
    bisection_method f a b nb tol = .error .indexError ∧
    trisection_method f a b nb tol = .error .indexError := by
  have hci : check_interval f a b tol = .ok [] := by
    unfold check_interval
    rw [if_neg h1, if_neg h2, if_neg h3]
  constructor
  · unfold bisection_method
    rw [hci]
  · unfold trisection_method
    rw [hci]

/-- Witness for claim C9 at `f(x) = x` on `[-1, 1]` with `tolerance = 1/2`. -/
theorem claim9_expert_methods_index_error_witness :
    (¬ (fun x : ℚ => x) (-1) * (fun x : ℚ => x) 1 > 0) ∧
    (¬ |(fun x : ℚ => x) (-1)| < 1 / 2) ∧ (¬ |(fun x : ℚ => x) 1| < 1 / 2) ∧
    bisection_method (fun x : ℚ => x) (-1) 1 10 (1 / 2) =
      .error .indexError ∧
    trisection_method (fun x : ℚ => x) (-1) 1 10 (1 / 2) =
      .error .indexError := by
  refine ⟨by norm_num, by norm_num [abs_eq_max_neg, max_def],
    by norm_num [abs_eq_max_neg, max_def], ?_, ?_⟩
  · exact (claim9_expert_methods_index_error (fun x : ℚ => x) (-1) 1 (1 / 2)
      10 (by norm_num) (by norm_num [abs_eq_max_neg, max_def])
      (by norm_num [abs_eq_max_neg, max_def])).1
  · exact (claim9_expert_methods_index_error (fun x : ℚ => x) (-1) 1 (1 / 2)
      10 (by norm_num) (by norm_num [abs_eq_max_neg, max_def])
      (by norm_num [abs_eq_max_neg, max_def])).2

/-- Claim C10.  For every `number_of_division < 2` the constructor fails with
the bare `Exception("Division number must be > 2")`, uniformly in `f`, the
bounds and the iteration budget (so before evaluating `f` or iterating), while
`number_of_division = 2` can never produce that exception. -/
theorem claim10_division_number_guard :
    (∀ (f : ℚ → ℚ) (nd : ℕ) (a b : ℚ) (nb : ℕ) (tol : ℚ), nd < 2 →
      dsSolve f nd a b nb tol =
        .error (.pyException "Division number must be > 2")) ∧
    (∀ (f : ℚ → ℚ) (a b : ℚ) (nb : ℕ) (tol : ℚ),
      dsSolve f 2 a b nb tol ≠
        .error (.pyException "Division number must be > 2")) := by
  constructor
  · intro f nd a b nb tol hnd
    unfold dsSolve
    rw [if_pos hnd]
  · intro f a b nb tol h
    unfold dsSolve at h
    rw [if_neg (by omega)] at h
    by_cases hab : f a * f b > 0
    · rw [if_pos hab] at h
      simp at h
    · rw [if_neg hab] at h
      unfold check_interval at h
      rw [if_neg hab] at h
      split_ifs at h with hfa hfb
      · simp at h
      · simp at h
      · simp only [List.isEmpty_nil, if_true] at h
        exact dsSolveLoop_no_pyException f 2 tol (nb - 1) a b [] 0 _ h

/-- Witness for claim C10 at `number_of_division = 1`. -/
theorem claim10_division_number_guard_witness :
    1 < 2 ∧ dsSolve (fun x : ℚ => x) 1 0 1 100 (1 / 2) =
      .error (.pyException "Division number must be > 2") :=
  ⟨by omega, claim10_division_number_guard.1 (fun x : ℚ => x) 1 0 1 100
    (1 / 2) (by omega)⟩

end RootFindingToolkit
